import Mathlib

/-!
# grease: a shallow embedding of the command-line release tool

The Go sources embedded here are `main.go` (argument validation, the before-hooks and the
three release actions), `github.go` (the four release operations) and `files.go` (glob
resolution).  Go strings are byte sequences, Go `int`s are integers, a Go `error` is a
value of `GoError`, and a nil pointer dereference or an out-of-range slice is an explicit
`none` / `panicked` outcome.  Everything the program does to the outside (printing, file
system, GitHub calls) is recorded in a trace of `Event`s; what the outside answers is a
`World` of oracles.
-/

set_option autoImplicit false

namespace Grease

/-! ## Go strings -/

/-- A Go string: an immutable sequence of bytes. -/
abbrev GoString := List UInt8

/-- The bytes (UTF-8) of a string literal of the source. -/
def goStr (s : String) : GoString := s.toList.flatMap String.utf8EncodeChar

/-- Go's `strings.Index(s, substr)`: byte index of the first occurrence of `substr` in `s`,
or `-1` when there is none. -/
def stringsIndex : GoString → GoString → Int
  | [], substr => if substr.isEmpty then 0 else -1
  | b :: rest, substr =>
    if substr.isPrefixOf (b :: rest) then 0
    else
      let r := stringsIndex rest substr
      if r = -1 then -1 else r + 1

/-- Go's slice expression `s[lo:hi]` on a string; `none` is the run-time panic for indices
out of range. -/
def goSlice (s : GoString) (lo hi : Int) : Option GoString :=
  if 0 ≤ lo ∧ lo ≤ hi ∧ hi ≤ (s.length : Int) then
    some ((s.take hi.toNat).drop lo.toNat)
  else none

/-- Go's `strings.LastIndex(s, "/")` for the one-byte separator used by `path.Base`. -/
def stringsLastIndexByte (s : GoString) (c : UInt8) : Int :=
  match s with
  | [] => -1
  | b :: rest =>
    let r := stringsLastIndexByte rest c
    if r = -1 then (if b = c then 0 else -1) else r + 1

/-- The loop of `path.Base` that strips trailing slashes, on the reversed string. -/
def stripLeadingSlashes : GoString → GoString
  | [] => []
  | b :: rest => if b = 47 then stripLeadingSlashes rest else b :: rest

/-- Go's `path.Base` (standard library): the last element of a slash-separated path. -/
def pathBase (path : GoString) : GoString :=
  if path = [] then goStr "."
  else
    let path := (stripLeadingSlashes path.reverse).reverse
    let i := stringsLastIndexByte path 47
    let path := if i ≥ 0 then path.drop (i + 1).toNat else path
    if path = [] then goStr "/" else path

/-! ## Error kinds (`main.go` 13-25, `files.go` 8-10) -/

/-- The struct `badGlobPatternError` of `files.go`. -/
structure badGlobPatternError where
  pattern : GoString
  deriving DecidableEq, Repr

/-- The struct `incorrectArgumentNumberError` of `main.go`. -/
structure incorrectArgumentNumberError where
  expected : Int
  received : Int
  deriving DecidableEq, Repr

/-- The struct `missingRequiredArgumentError` of `main.go`. -/
structure missingRequiredArgumentError where
  argument : GoString
  deriving DecidableEq, Repr

/-- The struct `badArgumentError` of `main.go`. -/
structure badArgumentError where
  argument : GoString
  reason : GoString
  deriving DecidableEq, Repr

/-- A non-nil value of Go's `error` interface: one of the four error kinds of this program, or
an error produced by a library (`path/filepath`, `flag`, `go-github`), known by its message. -/
inductive GoError
  | badGlobPattern (e : badGlobPatternError)
  | incorrectArgumentNumber (e : incorrectArgumentNumberError)
  | missingRequiredArgument (e : missingRequiredArgumentError)
  | badArgument (e : badArgumentError)
  | external (message : GoString)
  deriving DecidableEq, Repr

/-- The method `(*missingRequiredArgumentError).ExitCode`. -/
def missingRequiredArgumentError.ExitCode (_e : missingRequiredArgumentError) : Int := 64

/-- The method `(*incorrectArgumentNumberError).ExitCode`. -/
def incorrectArgumentNumberError.ExitCode (_e : incorrectArgumentNumberError) : Int := 64

/-- The method `(*badArgumentError).ExitCode`. -/
def badArgumentError.ExitCode (_e : badArgumentError) : Int := 64

/-- The method `(*badGlobPatternError).ExitCode`. -/
def badGlobPatternError.ExitCode (_e : badGlobPatternError) : Int := 64

/-- Go's `%d` verb on an `int`. -/
def fmtInt (n : Int) : GoString := goStr (toString n)

/-- The method `(*missingRequiredArgumentError).Error`. -/
def missingRequiredArgumentError.Error (e : missingRequiredArgumentError) : GoString :=
  goStr "Required argument \"" ++ e.argument ++ goStr "\" was not provided"

/-- The method `(*incorrectArgumentNumberError).Error`. -/
def incorrectArgumentNumberError.Error (e : incorrectArgumentNumberError) : GoString :=
  goStr "Expected " ++ fmtInt e.expected ++ goStr " positional arguments but received " ++
    fmtInt e.received

/-- The method `(*badArgumentError).Error`. -/
def badArgumentError.Error (e : badArgumentError) : GoString :=
  goStr "Bad argument " ++ e.argument ++ goStr ": " ++ e.reason

/-- The method `(*badGlobPatternError).Error`. -/
def badGlobPatternError.Error (e : badGlobPatternError) : GoString :=
  goStr "The pattern \"" ++ e.pattern ++ goStr "\" is not a valid glob pattern"

/-- The text of an error value, as `fmt.Println(err)` prints it. -/
def GoError.Error : GoError → GoString
  | .badGlobPattern e => e.Error
  | .incorrectArgumentNumber e => e.Error
  | .missingRequiredArgument e => e.Error
  | .badArgument e => e.Error
  | .external message => message

/-- The exit code of an error value, for the kinds that implement `ExitCode()`. -/
def GoError.ExitCode? : GoError → Option Int
  | .badGlobPattern e => some e.ExitCode
  | .incorrectArgumentNumber e => some e.ExitCode
  | .missingRequiredArgument e => some e.ExitCode
  | .badArgument e => some e.ExitCode
  | .external _ => none

/-! ## `splitRepositoryName` (`main.go` 774-799) -/

/-- The function `splitRepositoryName`: the named results `(owner, repo, e)`, which start as
`("", "", nil)`; `none` would be a slice panic. -/
def splitRepositoryName (name : GoString) : Option (GoString × GoString × Option GoError) :=
  let endOwnerIndex := stringsIndex name (goStr "/")
  if endOwnerIndex = -1 then
    some ([], [], some (.badArgument
      { argument := goStr "REPO",
        reason := goStr "expected to be of the form owner/repo but found no /" }))
  else if endOwnerIndex = 0 then
    some ([], [], some (.badArgument
      { argument := goStr "REPO",
        reason := goStr "expected to be of the form owner/repo but owner portion was blank" }))
  else
    let repoStartIndex := endOwnerIndex + 1
    let repoEndIndex : Int := name.length
    if repoStartIndex > repoEndIndex then
      some ([], [], some (.badArgument
        { argument := goStr "REPO",
          reason := goStr "expected to be of the form owner/repo but repo portion was blank" }))
    else
      match goSlice name 0 endOwnerIndex, goSlice name repoStartIndex repoEndIndex with
      | some owner, some repo => some (owner, repo, none)
      | _, _ => none

/-- The function `validateGitHubToken` (`main.go` 811-817). -/
def validateGitHubToken (gitHubToken : GoString) : Option GoError :=
  if gitHubToken = [] then
    some (.missingRequiredArgument { argument := goStr "--github-token" })
  else none

/-! ## The command-line context (`cli.Context`) -/

/-- The name of a command-line flag (a string literal of the source). -/
abbrev FlagName := String

/-- The part of `cli.Context` the program reads and writes: the positional arguments, the two
global boolean flags, and the string and boolean flags of the selected command. -/
structure Context where
  args : List GoString
  debug : Bool
  dryRun : Bool
  stringFlags : List (FlagName × GoString)
  boolFlags : List (FlagName × Bool)
  deriving DecidableEq, Repr

/-- The method `ctx.NArg()`: the number of positional arguments. -/
def Context.NArg (ctx : Context) : Int := ctx.args.length

/-- The method `ctx.Args().Get(n)`: the n-th positional argument, or `""`. -/
def Context.Get (ctx : Context) (n : Nat) : GoString := ctx.args.getD n []

/-- The method `ctx.GlobalBool(name)`. -/
def Context.GlobalBool (ctx : Context) (name : FlagName) : Bool :=
  if name = "debug" then ctx.debug else if name = "dry-run" then ctx.dryRun else false

/-- The method `ctx.String(name)`: the flag's value, `""` when there is no such flag. -/
def Context.String (ctx : Context) (name : FlagName) : GoString :=
  match ctx.stringFlags.lookup name with
  | some v => v
  | none => []

/-- The method `ctx.Bool(name)`. -/
def Context.Bool (ctx : Context) (name : FlagName) : Bool :=
  match ctx.boolFlags.lookup name with
  | some v => v
  | none => false

/-- The method `ctx.Set(name, value)` on a string flag: fails when the command defines no such
flag, and stores the value otherwise. -/
def Context.Set (ctx : Context) (name : FlagName) (value : GoString) : Except GoError Context :=
  if ctx.stringFlags.any (fun kv => kv.1 = name) then
    .ok { ctx with
      stringFlags := ctx.stringFlags.map (fun kv => if kv.1 = name then (kv.1, value) else kv) }
  else .error (.external (goStr "no such flag -" ++ goStr name))

/-! ## Traces -/

/-- One executed print statement, named by its place in the source. -/
inductive Out
  /-- The statement `fmt.Printf("Failed to open %s. Skipping.\n", assetPath)` -/
  | failedToOpen (assetPath : GoString)
  /-- The statement `fmt.Printf("Uploading asset at %s as %s\n", assetPath, filename)` -/
  | uploadingAsset (assetPath filename : GoString)
  /-- The statement `fmt.Printf("Error while uploading asset at %s\n", filename)` -/
  | errorWhileUploading (filename : GoString)
  /-- The statement `fmt.Println(err)` -/
  | errorValue (err : GoError)
  /-- The statement `fmt.Println("Dry run specified. Exiting.")` -/
  | dryRun
  /-- Any other print statement whose text is determined by its arguments. -/
  | info (text : GoString)
  /-- A `Printf` whose argument is a pointer (`release.TagName` and the like): the text holds
  an address, so only the format string is recorded. -/
  | address (format : GoString)
  deriving DecidableEq, Repr

/-- The text an executed print statement writes, when its arguments determine it. -/
def Out.text? : Out → Option GoString
  | .failedToOpen assetPath => some (goStr "Failed to open " ++ assetPath ++ goStr ". Skipping.\n")
  | .uploadingAsset assetPath filename =>
    some (goStr "Uploading asset at " ++ assetPath ++ goStr " as " ++ filename ++ goStr "\n")
  | .errorWhileUploading filename =>
    some (goStr "Error while uploading asset at " ++ filename ++ goStr "\n")
  | .errorValue err => some (err.Error ++ goStr "\n")
  | .dryRun => some (goStr "Dry run specified. Exiting.\n")
  | .info text => some text
  | .address _ => none

/-- The request body `github.RepositoryRelease`, restricted to the fields the program sets;
`none` is a nil pointer (the field is left out of the request). -/
structure RepositoryRelease where
  TagName : Option GoString
  TargetCommitish : Option GoString
  Name : Option GoString
  Body : Option GoString
  Draft : Option Bool
  Prerelease : Option Bool
  deriving DecidableEq, Repr

/-- What the program does to the outside, in order. -/
inductive Event
  /-- A line written to standard output. -/
  | out (o : Out)
  /-- The call `filepath.Glob(pattern)`. -/
  | glob (pattern : GoString)
  /-- The call `os.Open(path)`. -/
  | openFile (path : GoString)
  /-- The call `client.Repositories.GetReleaseByTag(ctx, owner, repo, tag)` -/
  | getReleaseByTag (owner repo tag token : GoString)
  /-- The call `client.Repositories.CreateRelease(ctx, owner, repo, request)` -/
  | createRelease (owner repo : GoString) (request : RepositoryRelease) (token : GoString)
  /-- The call `client.Repositories.EditRelease(ctx, owner, repo, id, request)` -/
  | editRelease (owner repo : GoString) (id : Int) (request : RepositoryRelease)
      (token : GoString)
  /-- The call `client.Repositories.UploadReleaseAsset(ctx, owner, repo, id, opts, file)`, where `file`
  is the handle opened from the path `file` and `name` is `opts.Name`. -/
  | uploadReleaseAsset (owner repo : GoString) (id : Int) (name file token : GoString)
  deriving DecidableEq, Repr

/-- The events that are calls of the Release API client. -/
def Event.isRemoteCall : Event → Bool
  | .getReleaseByTag .. => true
  | .createRelease .. => true
  | .editRelease .. => true
  | .uploadReleaseAsset .. => true
  | _ => false

/-- The events that open a file. -/
def Event.isOpenFile : Event → Bool
  | .openFile _ => true
  | _ => false

/-- The events that are `UploadReleaseAsset` calls. -/
def Event.isUpload : Event → Bool
  | .uploadReleaseAsset .. => true
  | _ => false

/-- The events that print the "Failed to open" line. -/
def Event.isFailedToOpen : Event → Bool
  | .out (.failedToOpen _) => true
  | _ => false

/-- How a function of the program ends: it returns its `error` result (`none` is `nil`), or
the run-time panics (nil pointer dereference, slice out of range). -/
inductive Outcome
  | returned (err : Option GoError)
  | panicked
  deriving DecidableEq, Repr

/-- The answers of the outside world.  `releaseId` answers are the `ID *int` field of the
release the client returns (`none` is a nil pointer).  In the asset loop each path is handled
once, so the answers for opening and uploading are indexed by the position of the path in the
list of assets. -/
structure World where
  glob : GoString → Except GoError (List GoString)
  getReleaseByTag : GoString → GoString → GoString → GoString → Except GoError (Option Int)
  createRelease : GoString → GoString → RepositoryRelease → GoString →
    Except GoError (Option Int)
  editRelease : GoString → GoString → Int → RepositoryRelease → GoString →
    Except GoError (Option Int)
  openFile : Nat → GoString → Bool
  uploadReleaseAsset : Nat → GoString → GoString → Int → GoString → GoString → GoString →
    Option GoError

/-! ## `files.go` -/

/-- The function `findFiles`: the result of `filepath.Glob`, unchanged. -/
def findFiles (w : World) (globPattern : GoString) : Except GoError (List GoString) :=
  w.glob globPattern

/-! ## `github.go` -/

/-- The struct `gitHubRepo`. -/
structure gitHubRepo where
  Owner : GoString
  Name : GoString
  deriving DecidableEq, Repr

/-- The struct `gitHubRelease`; every field is a pointer. -/
structure gitHubRelease where
  TagName : Option GoString
  TargetCommitish : Option GoString
  Name : Option GoString
  Body : Option GoString
  Draft : Option Bool
  PreRelease : Option Bool
  deriving DecidableEq, Repr

/-- The method `(*gitHubRepo).GetReleaseIdByTag`: the call made and the `(*int, error)`
result. -/
def gitHubRepo.GetReleaseIdByTag (w : World) (repo : gitHubRepo) (tag token : GoString) :
    Event × Except GoError (Option Int) :=
  (.getReleaseByTag repo.Owner repo.Name tag token,
    match w.getReleaseByTag repo.Owner repo.Name tag token with
    | .error err => .error err
    | .ok releaseID => .ok releaseID)

/-- The method `(*gitHubRepo).CreateRelease`. -/
def gitHubRepo.CreateRelease (w : World) (repo : gitHubRepo) (release : gitHubRelease)
    (token : GoString) : Event × Except GoError (Option Int) :=
  let gRelease : RepositoryRelease :=
    { TagName := release.TagName,
      TargetCommitish := release.TargetCommitish,
      Name := release.Name,
      Body := release.Body,
      Draft := release.Draft,
      Prerelease := release.PreRelease }
  (.createRelease repo.Owner repo.Name gRelease token,
    match w.createRelease repo.Owner repo.Name gRelease token with
    | .error err => .error err
    | .ok createdID => .ok createdID)

/-- The method `(*gitHubRepo).UpdateRelease`. -/
def gitHubRepo.UpdateRelease (w : World) (repo : gitHubRepo) (releaseId : Int)
    (release : gitHubRelease) (token : GoString) : Event × Except GoError (Option Int) :=
  let gRelease : RepositoryRelease :=
    { TagName := none,
      TargetCommitish := none,
      Name := release.Name,
      Body := release.Body,
      Draft := release.Draft,
      Prerelease := release.PreRelease }
  (.editRelease repo.Owner repo.Name releaseId gRelease token,
    match w.editRelease repo.Owner repo.Name releaseId gRelease token with
    | .error err => .error err
    | .ok updatedID => .ok updatedID)

/-- The method `(*gitHubRepo).UploadReleaseAsset`; `index` is the position of the asset in the
list being uploaded and `file` the path the handle was opened from. -/
def gitHubRepo.UploadReleaseAsset (w : World) (index : Nat) (repo : gitHubRepo)
    (releaseId : Int) (file filename token : GoString) : Event × Option GoError :=
  (.uploadReleaseAsset repo.Owner repo.Name releaseId filename file token,
    w.uploadReleaseAsset index repo.Owner repo.Name releaseId filename file token)

/-! ## Validation and the before-hooks (`main.go` 251-453, 801-809) -/

/-- The function `validatePositionalArgumentCount`. -/
def validatePositionalArgumentCount (ctx : Context) (expected : Int) : Option GoError :=
  let received := ctx.NArg
  if received ≠ expected then
    some (.incorrectArgumentNumber { expected := expected, received := received })
  else none

/-- What a before-hook leaves behind: how it ended, the context as it now is, and what it
printed. -/
structure HookResult where
  outcome : Outcome
  ctx : Context
  printed : List Out
  deriving DecidableEq, Repr

/-- The step repeated in every before-hook,
`err = ctx.Set(name, value); if err != nil { return err }; if debug { fmt.Printf(...) }`,
followed by the rest of the hook. -/
def setThen (debug : Bool) (name : FlagName) (value line : GoString)
    (rest : Context → List Out → HookResult) (ctx : Context) (printed : List Out) :
    HookResult :=
  match ctx.Set name value with
  | .error err => { outcome := .returned (some err), ctx := ctx, printed := printed }
  | .ok ctx' => rest ctx' (if debug then printed ++ [.info line] else printed)

/-- The end of a before-hook: `return nil`. -/
def hookDone (ctx : Context) (printed : List Out) : HookResult :=
  { outcome := .returned none, ctx := ctx, printed := printed }

/-- The part shared by the three hooks that take `REPO TAG ...`: split `REPO`, set `owner`,
`repository` and `tag`, then go on with `rest`. -/
def setRepoAndTag (debug : Bool) (rest : Context → List Out → HookResult) (ctx : Context) :
    HookResult :=
  let repo := ctx.Get 0
  match splitRepositoryName repo with
  | none => { outcome := .panicked, ctx := ctx, printed := [] }
  | some (_, _, some err) => { outcome := .returned (some err), ctx := ctx, printed := [] }
  | some (repoOwner, repoName, none) =>
    setThen debug "owner" repoOwner (goStr "GitHub repository owner is: " ++ repoOwner ++ goStr "\n")
      (setThen debug "repository" repoName
        (goStr "GitHub repository name is: " ++ repo ++ goStr "\n")
        (let tag := ctx.Get 1
         setThen debug "tag" tag (goStr "Git tag is: " ++ tag ++ goStr "\n") rest))
      ctx []

/-- The hook `beforeCreateRelease`. -/
def beforeCreateRelease (ctx : Context) : HookResult :=
  let debug := ctx.GlobalBool "debug"
  match validatePositionalArgumentCount ctx 3 with
  | some err => { outcome := .returned (some err), ctx := ctx, printed := [] }
  | none =>
    setRepoAndTag debug
      (let commitish := ctx.Get 2
       setThen debug "target-commitish" commitish
        (goStr "Git commitish is: " ++ commitish ++ goStr "\n") hookDone)
      ctx

/-- The hook `beforeUpdateRelease`. -/
def beforeUpdateRelease (ctx : Context) : HookResult :=
  let debug := ctx.GlobalBool "debug"
  match validatePositionalArgumentCount ctx 2 with
  | some err => { outcome := .returned (some err), ctx := ctx, printed := [] }
  | none => setRepoAndTag debug hookDone ctx

/-- The hook `beforeUploadArtifacts`. -/
def beforeUploadArtifacts (ctx : Context) : HookResult :=
  let debug := ctx.GlobalBool "debug"
  match validatePositionalArgumentCount ctx 3 with
  | some err => { outcome := .returned (some err), ctx := ctx, printed := [] }
  | none =>
    setRepoAndTag debug
      (let globPattern := ctx.Get 2
       setThen debug "glob-pattern" globPattern
        (goStr "Glob pattern is: " ++ globPattern ++ goStr "\n") hookDone)
      ctx

/-- The hook `beforeListFiles`. -/
def beforeListFiles (ctx : Context) : HookResult :=
  let debug := ctx.GlobalBool "debug"
  match validatePositionalArgumentCount ctx 1 with
  | some err => { outcome := .returned (some err), ctx := ctx, printed := [] }
  | none =>
    let globPattern := ctx.Get 0
    setThen debug "glob-pattern" globPattern
      (goStr "Glob pattern is: " ++ globPattern ++ goStr "\n") hookDone ctx []

/-! ## The command actions (`main.go` 455-752) -/

/-- The debug listing of the assets found, the same in the three commands. -/
def assetListing (assets : List GoString) : List Event :=
  if assets.length = 0 then [.out (.info (goStr "No assets found to upload\n"))]
  else
    .out (.info (goStr "The following assets will be uploaded:\n")) ::
      assets.map (fun assetPath =>
        .out (.info (goStr "\t" ++ assetPath ++ goStr " as " ++ pathBase assetPath ++ goStr "\n")))

/-- The body of the asset loop for the path at position `index`
(`main.go` 540-557, 655-672, 731-748: the same text in the three commands): the events it
adds, and whether it panicked at `*releaseId`; `releaseId` is the pointer the primary step
returned. -/
def uploadAsset (w : World) (debug : Bool) (repo : gitHubRepo) (releaseId : Option Int)
    (gitHubToken : GoString) (index : Nat) (assetPath : GoString) : List Event × Bool :=
  let filename := pathBase assetPath
  let tr : List Event := [.openFile assetPath]
  if w.openFile index assetPath = false then
    (tr ++ [.out (.failedToOpen assetPath)], false)
  else
    let tr := if debug then tr ++ [.out (.uploadingAsset assetPath filename)] else tr
    match releaseId with
    | none => (tr, true)
    | some id =>
      let call := repo.UploadReleaseAsset w index id assetPath filename gitHubToken
      match call.2 with
      | none => (tr ++ [call.1], false)
      | some err =>
        (tr ++ [call.1, .out (.errorWhileUploading filename), .out (.errorValue err)], false)

/-- The asset loop `for _, assetPath := range assets { ... }` and the `return nil` after it:
how the command ends and the events the loop adds. -/
def uploadAssets (w : World) (debug : Bool) (repo : gitHubRepo) (releaseId : Option Int)
    (gitHubToken : GoString) : Nat → List GoString → Outcome × List Event
  | _, [] => (.returned none, [])
  | index, assetPath :: rest =>
    let step := uploadAsset w debug repo releaseId gitHubToken index assetPath
    if step.2 then (.panicked, step.1)
    else
      let later := uploadAssets w debug repo releaseId gitHubToken (index + 1) rest
      (later.1, step.1 ++ later.2)

/-- The action `cmdCreateRelease`: how it ends and the trace of what it did. -/
def cmdCreateRelease (w : World) (ctx : Context) : Outcome × List Event :=
  let dry := ctx.GlobalBool "dry-run"
  let debug := ctx.GlobalBool "debug"
  let tr : List Event :=
    if debug then [.out (.info (goStr "Preparing to create release\n"))] else []
  let repoName := ctx.String "repository"
  let repoOwner := ctx.String "owner"
  let tagName := ctx.String "tag"
  let targetCommitish := ctx.String "target-commitish"
  let releaseName := ctx.String "name"
  let releaseBody := ctx.String "notes"
  let draft := ctx.Bool "draft"
  let preRelease := ctx.Bool "pre-release"
  let assetGlobPattern := ctx.String "assets"
  let gitHubToken := ctx.String "github-token"
  let repo : gitHubRepo := { Name := repoName, Owner := repoOwner }
  let release : gitHubRelease :=
    { TagName := some tagName,
      TargetCommitish := some targetCommitish,
      Name := some releaseName,
      Body := some releaseBody,
      Draft := some draft,
      PreRelease := some preRelease }
  let tr := tr ++ [.glob assetGlobPattern]
  match findFiles w assetGlobPattern with
  | .error err => (.returned (some err), tr)
  | .ok assets =>
    let tr :=
      if debug then
        tr ++
          [.out (.info (goStr "Will create release with the following settings...\n")),
           .out (.info (goStr "Repo: https://github.com/" ++ repo.Owner ++ goStr "/" ++
              repo.Name ++ goStr "\n")),
           .out (.info (goStr "Using token: " ++ gitHubToken ++ goStr "\n")),
           .out (.address (goStr "Tag: %s\n")),
           .out (.address (goStr "Tag Commit: %s\n")),
           .out (.address (goStr "Release Name/Title: %s\n")),
           .out (.address (goStr "Draft: %t\n")),
           .out (.address (goStr "Pre-release: %t\n")),
           .out (.info (goStr "-----Begin Release Notes-----\n")),
           .out (.address (goStr "%s\n")),
           .out (.info (goStr "-----End Release Notes-----\n"))] ++
          assetListing assets
      else tr
    if dry then (.returned none, tr ++ [.out .dryRun])
    else
      let call := repo.CreateRelease w release gitHubToken
      let tr := tr ++ [call.1]
      match call.2 with
      | .error err => (.returned (some err), tr)
      | .ok releaseId =>
        if debug then
          match releaseId with
          | none => (.panicked, tr)
          | some id =>
            let tr :=
              tr ++ [.out (.info (goStr "Created release (id: " ++ fmtInt id ++ goStr ")!\n")),
                     .out (.info (goStr "Preparing to upload any assets\n"))]
            let loop := uploadAssets w debug repo releaseId gitHubToken 0 assets
            (loop.1, tr ++ loop.2)
        else
          let loop := uploadAssets w debug repo releaseId gitHubToken 0 assets
          (loop.1, tr ++ loop.2)

/-- The action `cmdUpdateRelease`. -/
def cmdUpdateRelease (w : World) (ctx : Context) : Outcome × List Event :=
  let dry := ctx.GlobalBool "dry-run"
  let debug := ctx.GlobalBool "debug"
  let tr : List Event :=
    if debug then [.out (.info (goStr "Preparing to update release\n"))] else []
  let repoName := ctx.String "repository"
  let repoOwner := ctx.String "owner"
  let tagName := ctx.String "tag"
  let releaseName := ctx.String "name"
  let releaseBody := ctx.String "notes"
  let draft := ctx.Bool "draft"
  let preRelease := ctx.Bool "pre-release"
  let assetGlobPattern := ctx.String "assets"
  let gitHubToken := ctx.String "github-token"
  let repo : gitHubRepo := { Name := repoName, Owner := repoOwner }
  let release : gitHubRelease :=
    { TagName := some tagName,
      TargetCommitish := none,
      Name := some releaseName,
      Body := some releaseBody,
      Draft := some draft,
      PreRelease := some preRelease }
  let tr := tr ++ [.glob assetGlobPattern]
  match findFiles w assetGlobPattern with
  | .error err => (.returned (some err), tr)
  | .ok assets =>
    let tr :=
      if debug then
        tr ++
          [.out (.info (goStr "Will update release with the following settings...\n")),
           .out (.info (goStr "Repo: https://github.com/" ++ repo.Owner ++ goStr "/" ++
              repo.Name ++ goStr "\n")),
           .out (.info (goStr "Using token: " ++ gitHubToken ++ goStr "\n")),
           .out (.address (goStr "Tag: %s\n")),
           .out (.address (goStr "Release Name/Title: %s\n")),
           .out (.address (goStr "Draft: %t\n")),
           .out (.address (goStr "Pre-release: %t\n")),
           .out (.info (goStr "-----Begin Release Notes-----\n")),
           .out (.address (goStr "%s\n")),
           .out (.info (goStr "-----End Release Notes-----\n"))] ++
          assetListing assets
      else tr
    if dry then (.returned none, tr ++ [.out .dryRun])
    else
      let lookup := repo.GetReleaseIdByTag w tagName gitHubToken
      let tr := tr ++ [lookup.1]
      match lookup.2 with
      | .error err => (.returned (some err), tr)
      | .ok releaseId =>
        match releaseId with
        | none => (.panicked, tr)
        | some id =>
          let call := repo.UpdateRelease w id release gitHubToken
          let tr := tr ++ [call.1]
          match call.2 with
          | .error err => (.returned (some err), tr)
          | .ok _ =>
            let tr :=
              if debug then
                tr ++ [.out (.info (goStr "Updated release (id: " ++ fmtInt id ++ goStr ")!\n")),
                       .out (.info (goStr "Preparing to upload any assets\n"))]
              else tr
            let loop := uploadAssets w debug repo releaseId gitHubToken 0 assets
            (loop.1, tr ++ loop.2)

/-- The action `cmdUploadArtifacts`. -/
def cmdUploadArtifacts (w : World) (ctx : Context) : Outcome × List Event :=
  let dry := ctx.GlobalBool "dry-run"
  let debug := ctx.GlobalBool "debug"
  let tr : List Event :=
    if debug then [.out (.info (goStr "Preparing to upload assets\n"))] else []
  let repoName := ctx.String "repository"
  let repoOwner := ctx.String "owner"
  let tagName := ctx.String "tag"
  let assetGlobPattern := ctx.String "glob-pattern"
  let gitHubToken := ctx.String "github-token"
  let repo : gitHubRepo := { Name := repoName, Owner := repoOwner }
  let tr := tr ++ [.glob assetGlobPattern]
  match findFiles w assetGlobPattern with
  | .error err => (.returned (some err), tr)
  | .ok assets =>
    let tr :=
      if debug then
        tr ++
          [.out (.info (goStr "Uploading assets with the following settings...\n")),
           .out (.info (goStr "Repo: https://github.com/" ++ repo.Owner ++ goStr "/" ++
              repo.Name ++ goStr "\n")),
           .out (.info (goStr "Using token: " ++ gitHubToken ++ goStr "\n")),
           .out (.info (goStr "Tag: " ++ tagName ++ goStr "\n"))] ++
          assetListing assets
      else tr
    if dry then (.returned none, tr ++ [.out .dryRun])
    else
      let lookup := repo.GetReleaseIdByTag w tagName gitHubToken
      let tr := tr ++ [lookup.1]
      match lookup.2 with
      | .error err => (.returned (some err), tr)
      | .ok releaseId =>
        let loop := uploadAssets w debug repo releaseId gitHubToken 0 assets
        (loop.1, tr ++ loop.2)

/-! ## Statements about the asset loop -/

/-- The repository value the three actions build from the context. -/
def Context.repo (ctx : Context) : gitHubRepo :=
  { Name := ctx.String "repository", Owner := ctx.String "owner" }

/-- The release value `cmdCreateRelease` builds from the context. -/
def Context.createDescriptor (ctx : Context) : gitHubRelease :=
  { TagName := some (ctx.String "tag"),
    TargetCommitish := some (ctx.String "target-commitish"),
    Name := some (ctx.String "name"),
    Body := some (ctx.String "notes"),
    Draft := some (ctx.Bool "draft"),
    PreRelease := some (ctx.Bool "pre-release") }

/-- The release value `cmdUpdateRelease` builds from the context. -/
def Context.updateDescriptor (ctx : Context) : gitHubRelease :=
  { TagName := some (ctx.String "tag"),
    TargetCommitish := none,
    Name := some (ctx.String "name"),
    Body := some (ctx.String "notes"),
    Draft := some (ctx.Bool "draft"),
    PreRelease := some (ctx.Bool "pre-release") }

/-- What the trace `tr` of a command shows about the paths `assets`: every path is opened
once, in list order; each path that does not open gives one "Failed to open" line; each path
that opens gives one `UploadReleaseAsset` call, in list order, named by `path.Base`; and there
is no other such line or call. -/
def AssetsHandled (w : World) (repo : gitHubRepo) (id : Int) (token : GoString)
    (assets : List GoString) (tr : List Event) : Prop :=
  tr.filter Event.isOpenFile = assets.map .openFile ∧
  tr.filter Event.isFailedToOpen =
    (assets.enum.filter (fun ip => !w.openFile ip.1 ip.2)).map
      (fun ip => .out (.failedToOpen ip.2)) ∧
  tr.filter Event.isUpload =
    (assets.enum.filter (fun ip => w.openFile ip.1 ip.2)).map
      (fun ip => .uploadReleaseAsset repo.Owner repo.Name id (pathBase ip.2) ip.2 token)

/-! ## Sample inputs -/

/-- A context as the command-line framework hands it to the hooks and actions of
`create-release`, `update-release` and `upload-assets` for the repository `acme/widgets`, the
tag `v1.0.0` and the pattern `dist/*`, with no GitHub token. -/
def sampleContext : Context :=
  { args := [goStr "acme/widgets", goStr "v1.0.0"]
    debug := false
    dryRun := false
    stringFlags :=
      [("repository", goStr "widgets"), ("owner", goStr "acme"), ("tag", goStr "v1.0.0"),
       ("target-commitish", goStr "master"), ("name", []), ("notes", []),
       ("assets", goStr "dist/*"), ("glob-pattern", goStr "dist/*"), ("github-token", [])]
    boolFlags := [("draft", false), ("pre-release", false)] }

/-- A world in which `dist/*` matches three files, the second of which cannot be opened, the
GitHub calls succeed with release id 7, and the upload of the first file fails. -/
def sampleWorld : World :=
  { glob := fun _ => .ok [goStr "dist/a.zip", goStr "dist/b.zip", goStr "dist/c.zip"]
    getReleaseByTag := fun _ _ _ _ => .ok (some 7)
    createRelease := fun _ _ _ _ => .ok (some 7)
    editRelease := fun _ _ _ _ _ => .ok (some 7)
    openFile := fun index _ => index != 1
    uploadReleaseAsset := fun index _ _ _ _ _ _ =>
      if index = 0 then some (.external (goStr "upload failed")) else none }

/-- A world whose matcher rejects the pattern `[` with `filepath.ErrBadPattern`, as
`filepath.Glob` does for an unterminated bracket expression. -/
def rejectingWorld : World :=
  { sampleWorld with
    glob := fun pattern =>
      if pattern = goStr "[" then .error (.external (goStr "syntax error in pattern"))
      else .ok [] }

/-- A world like `sampleWorld` in which the tag is not found and GitHub refuses to create or
edit a release. -/
def refusingWorld : World :=
  { sampleWorld with
    getReleaseByTag := fun _ _ _ _ => .error (.external (goStr "404 Not Found"))
    createRelease := fun _ _ _ _ => .error (.external (goStr "422 Validation Failed"))
    editRelease := fun _ _ _ _ _ => .error (.external (goStr "404 Not Found")) }

/-! ## Lemmas on the string functions -/

theorem goStr_slash : goStr "/" = [47] := by decide

theorem stringsIndex_slash_cons (b : UInt8) (rest : GoString) :
    stringsIndex (b :: rest) [47] =
      if b = 47 then 0
      else if stringsIndex rest [47] = -1 then -1 else stringsIndex rest [47] + 1 := by
  rw [stringsIndex]
  by_cases h : b = 47
  · subst h; simp [List.isPrefixOf]
  · have h' : ¬ ((47 : UInt8) = b) := fun e => h e.symm
    simp [List.isPrefixOf, h, h']

theorem stringsIndex_slash_nil : stringsIndex [] [47] = -1 := by
  simp [stringsIndex]

/-- When the separator does not occur, `strings.Index` answers `-1`. -/
theorem stringsIndex_of_not_mem (s : GoString) (h : (47 : UInt8) ∉ s) :
    stringsIndex s [47] = -1 := by
  induction s with
  | nil => exact stringsIndex_slash_nil
  | cons b rest ih =>
    have hb : b ≠ 47 := fun e => h (by simp [e])
    have hr : (47 : UInt8) ∉ rest := fun m => h (List.mem_cons_of_mem _ m)
    rw [stringsIndex_slash_cons, if_neg hb, ih hr]; simp

/-- In front of the first separator, `strings.Index` answers the length of what precedes. -/
theorem stringsIndex_append (pre post : GoString) (h : (47 : UInt8) ∉ pre) :
    stringsIndex (pre ++ 47 :: post) [47] = pre.length := by
  induction pre with
  | nil => simp [stringsIndex_slash_cons]
  | cons b rest ih =>
    have hb : b ≠ 47 := fun e => h (by simp [e])
    have hr : (47 : UInt8) ∉ rest := fun m => h (List.mem_cons_of_mem _ m)
    rw [List.cons_append, stringsIndex_slash_cons, if_neg hb, ih hr]
    have : ¬ ((rest.length : Int) = -1) := by omega
    rw [if_neg this]; simp

/-- Either the separator does not occur and the answer is `-1`, or the string splits at its
first separator and the answer is the length of the part before it. -/
theorem stringsIndex_cases (s : GoString) :
    ((47 : UInt8) ∉ s ∧ stringsIndex s [47] = -1) ∨
    ∃ pre post, s = pre ++ 47 :: post ∧ (47 : UInt8) ∉ pre ∧
      stringsIndex s [47] = pre.length := by
  by_cases h : (47 : UInt8) ∈ s
  · right
    obtain ⟨pre, post, hs, hpre⟩ := List.eq_append_cons_of_mem h
    exact ⟨pre, post, hs, hpre, hs ▸ stringsIndex_append pre post hpre⟩
  · exact Or.inl ⟨h, stringsIndex_of_not_mem s h⟩

/-- What `splitRepositoryName` returns on a string cut at its first separator, with a
non-empty part before it. -/
theorem splitRepositoryName_append (pre post : GoString) (h : (47 : UInt8) ∉ pre)
    (hne : pre ≠ []) :
    splitRepositoryName (pre ++ 47 :: post) = some (pre, post, none) := by
  have hlen : 0 < pre.length := List.length_pos.mpr hne
  have hl : (pre ++ 47 :: post).length = pre.length + 1 + post.length := by
    rw [List.length_append, List.length_cons]; omega
  unfold splitRepositoryName
  simp only [goStr_slash, stringsIndex_append pre post h]
  have h1 : ¬ ((pre.length : Int) = -1) := by omega
  have h2 : ¬ ((pre.length : Int) = 0) := by omega
  have h3 : ¬ ((pre.length : Int) + 1 > ((pre ++ 47 :: post).length : Int)) := by
    omega
  rw [if_neg h1, if_neg h2, if_neg h3]
  have s1 : goSlice (pre ++ 47 :: post) 0 (pre.length : Int) = some pre := by
    unfold goSlice
    rw [if_pos]
    · simp
    · omega
  have s2 : goSlice (pre ++ 47 :: post) ((pre.length : Int) + 1)
      ((pre ++ 47 :: post).length : Int) = some post := by
    unfold goSlice
    rw [if_pos]
    · have : ((pre.length : Int) + 1).toNat = pre.length + 1 := by omega
      simp only [Int.toNat_ofNat, List.take_length, this]
      simp
    · omega
  rw [s1, s2]

/-! ## Claims on `splitRepositoryName` -/

/-- C1: for every string `s` whose first `/` is at index `i` with `0 < i` and
`i + 1 < len(s)`, `splitRepositoryName(s)` returns no error, the owner is `s[0..i)` and the
repo is `s[i+1..len(s))`, further `/` included. -/
theorem splitRepositoryName_at_first_slash (s : GoString) (i : Nat)
    (hslash : s[i]? = some 47) (hfirst : ∀ j, j < i → s[j]? ≠ some 47)
    (hpos : 0 < i) (hrest : i + 1 < s.length) :
    splitRepositoryName s = some (s.take i, s.drop (i + 1), none) := by
  have hi : i < s.length := by omega
  have hget : s[i] = 47 := by
    rw [List.getElem?_eq_getElem hi] at hslash
    exact Option.some.inj hslash
  have hs : s = s.take i ++ 47 :: s.drop (i + 1) := by
    conv_lhs => rw [← List.take_append_drop i s, List.drop_eq_getElem_cons hi, hget]
  have hnot : (47 : UInt8) ∉ s.take i := by
    intro hmem
    obtain ⟨j, hj, hj'⟩ := List.getElem_of_mem hmem
    have hjlt : j < i := by
      have := List.length_take_le i s
      omega
    rw [List.getElem_take] at hj'
    have hjs : j < s.length := by omega
    exact hfirst j hjlt (by rw [List.getElem?_eq_getElem hjs, hj'])
  have hne : s.take i ≠ [] := by
    intro h
    have := congrArg List.length h
    rw [List.length_take] at this
    simp only [List.length_nil] at this
    omega
  have key := splitRepositoryName_append (s.take i) (s.drop (i + 1)) hnot hne
  rw [← hs] at key
  exact key

/-- C1 at the input of `TestSplitRepositoryName`. -/
theorem splitRepositoryName_at_first_slash_witness :
    splitRepositoryName (goStr "timberio/grease") =
      some ((goStr "timberio/grease").take 8, (goStr "timberio/grease").drop (8 + 1), none) :=
  splitRepositoryName_at_first_slash (goStr "timberio/grease") 8 (by decide) (by decide)
    (by decide) (by decide)

/-- C2, the code at the input `"owner/"`: nothing follows the first `/`, and the function
returns no error, the owner `"owner"` and an empty repo name. -/
theorem splitRepositoryName_trailing_slash :
    splitRepositoryName (goStr "owner/") = some (goStr "owner", [], none) := by
  decide

/-- C3: for every string that contains no `/` and for every string whose first character is
`/`, `splitRepositoryName` fails with a `badArgumentError` whose argument is `"REPO"`, and the
owner and repo returned are both empty. -/
theorem splitRepositoryName_no_slash_or_leading (s : GoString)
    (h : (47 : UInt8) ∉ s ∨ s.head? = some 47) :
    ∃ reason, splitRepositoryName s =
      some ([], [], some (.badArgument { argument := goStr "REPO", reason := reason })) := by
  rcases h with h | h
  · refine ⟨goStr "expected to be of the form owner/repo but found no /", ?_⟩
    unfold splitRepositoryName
    simp only [goStr_slash, stringsIndex_of_not_mem s h]
    rfl
  · refine ⟨goStr "expected to be of the form owner/repo but owner portion was blank", ?_⟩
    cases s with
    | nil => simp at h
    | cons b rest =>
      have hb : b = 47 := by simpa using h
      subst hb
      have h0 : stringsIndex ((47 : UInt8) :: rest) [47] = 0 := by
        rw [stringsIndex_slash_cons]; simp
      unfold splitRepositoryName
      simp only [goStr_slash, h0]
      rfl

/-- C3 at the inputs `"grease"` (no `/`) and `"/grease"` (leading `/`). -/
theorem splitRepositoryName_no_slash_or_leading_witness :
    (∃ reason, splitRepositoryName (goStr "grease") =
      some ([], [], some (.badArgument { argument := goStr "REPO", reason := reason }))) ∧
    (∃ reason, splitRepositoryName (goStr "/grease") =
      some ([], [], some (.badArgument { argument := goStr "REPO", reason := reason }))) :=
  ⟨splitRepositoryName_no_slash_or_leading (goStr "grease") (Or.inl (by decide)),
   splitRepositoryName_no_slash_or_leading (goStr "/grease") (Or.inr (by decide))⟩

/-! ## Claims on validation, errors and requests -/

/-- C4: `validatePositionalArgumentCount` returns an error exactly when the received count
differs from the expected one, and that error is an `incorrectArgumentNumberError` with both
counts; the before-hooks call it with 3, 2, 3 and 1 and return that error with the context
untouched and nothing printed. -/
theorem validatePositionalArgumentCount_iff (ctx : Context) (e : Int) :
    (validatePositionalArgumentCount ctx e ≠ none ↔ ctx.NArg ≠ e) ∧
    (ctx.NArg ≠ e → validatePositionalArgumentCount ctx e =
      some (.incorrectArgumentNumber { expected := e, received := ctx.NArg })) ∧
    (ctx.NArg ≠ 3 → beforeCreateRelease ctx =
      { outcome := .returned (some (.incorrectArgumentNumber
          { expected := 3, received := ctx.NArg })),
        ctx := ctx, printed := [] }) ∧
    (ctx.NArg ≠ 2 → beforeUpdateRelease ctx =
      { outcome := .returned (some (.incorrectArgumentNumber
          { expected := 2, received := ctx.NArg })),
        ctx := ctx, printed := [] }) ∧
    (ctx.NArg ≠ 3 → beforeUploadArtifacts ctx =
      { outcome := .returned (some (.incorrectArgumentNumber
          { expected := 3, received := ctx.NArg })),
        ctx := ctx, printed := [] }) ∧
    (ctx.NArg ≠ 1 → beforeListFiles ctx =
      { outcome := .returned (some (.incorrectArgumentNumber
          { expected := 1, received := ctx.NArg })),
        ctx := ctx, printed := [] }) := by
  refine ⟨?_, ?_, ?_, ?_, ?_, ?_⟩
  · unfold validatePositionalArgumentCount
    by_cases h : ctx.NArg = e <;> simp [h]
  · intro h
    simp [validatePositionalArgumentCount, h]
  · intro h
    simp [beforeCreateRelease, validatePositionalArgumentCount, h]
  · intro h
    simp [beforeUpdateRelease, validatePositionalArgumentCount, h]
  · intro h
    simp [beforeUploadArtifacts, validatePositionalArgumentCount, h]
  · intro h
    simp [beforeListFiles, validatePositionalArgumentCount, h]

/-- C4 at a context with two positional arguments, given to the hook of `create-release`. -/
theorem validatePositionalArgumentCount_iff_witness :
    beforeCreateRelease sampleContext =
      { outcome := .returned (some (.incorrectArgumentNumber { expected := 3, received := 2 })),
        ctx := sampleContext, printed := [] } :=
  (validatePositionalArgumentCount_iff sampleContext 3).2.2.1 (by decide)

/-- C5, the code at an empty token without dry-run: each of the three commands goes on to the
Release API with the empty token and returns no error. -/
theorem commands_run_without_token :
    sampleContext.String "github-token" = [] ∧ sampleContext.dryRun = false ∧
    (cmdCreateRelease sampleWorld sampleContext).1 = .returned none ∧
    ((cmdCreateRelease sampleWorld sampleContext).2.filter Event.isRemoteCall).head? =
      some (.createRelease (goStr "acme") (goStr "widgets")
        { TagName := some (goStr "v1.0.0"), TargetCommitish := some (goStr "master"),
          Name := some [], Body := some [], Draft := some false, Prerelease := some false }
        []) ∧
    (cmdUpdateRelease sampleWorld sampleContext).1 = .returned none ∧
    ((cmdUpdateRelease sampleWorld sampleContext).2.filter Event.isRemoteCall).head? =
      some (.getReleaseByTag (goStr "acme") (goStr "widgets") (goStr "v1.0.0") []) ∧
    (cmdUploadArtifacts sampleWorld sampleContext).1 = .returned none ∧
    ((cmdUploadArtifacts sampleWorld sampleContext).2.filter Event.isRemoteCall).head? =
      some (.getReleaseByTag (goStr "acme") (goStr "widgets") (goStr "v1.0.0") []) := by
  decide

/-- C7, the code at the pattern `[`: `findFiles` hands back the matcher's own error, which is
not a `badGlobPatternError`. -/
theorem findFiles_malformed_pattern :
    findFiles rejectingWorld (goStr "[") =
      .error (.external (goStr "syntax error in pattern")) ∧
    GoError.external (goStr "syntax error in pattern") ≠
      .badGlobPattern { pattern := goStr "[" } := by
  refine ⟨by rfl, ?_⟩
  intro h
  cases h

/-- C8: `ExitCode()` returns 64 on every value of each of the four user-facing error
kinds. -/
theorem ExitCode_eq_64 (g : badGlobPatternError) (a : badArgumentError)
    (n : incorrectArgumentNumberError) (m : missingRequiredArgumentError) :
    g.ExitCode = 64 ∧ a.ExitCode = 64 ∧ n.ExitCode = 64 ∧ m.ExitCode = 64 :=
  ⟨rfl, rfl, rfl, rfl⟩

/-- C9: the request `UpdateRelease` submits carries the descriptor's Name, Body, Draft and
PreRelease and leaves TagName and TargetCommitish unset, whatever the descriptor holds; the
request `CreateRelease` submits carries all six fields of the descriptor. -/
theorem UpdateRelease_request (w : World) (repo : gitHubRepo) (releaseId : Int)
    (release : gitHubRelease) (token : GoString) :
    (repo.UpdateRelease w releaseId release token).1 =
      .editRelease repo.Owner repo.Name releaseId
        { TagName := none, TargetCommitish := none, Name := release.Name,
          Body := release.Body, Draft := release.Draft, Prerelease := release.PreRelease }
        token ∧
    (repo.CreateRelease w release token).1 =
      .createRelease repo.Owner repo.Name
        { TagName := release.TagName, TargetCommitish := release.TargetCommitish,
          Name := release.Name, Body := release.Body, Draft := release.Draft,
          Prerelease := release.PreRelease }
        token :=
  ⟨rfl, rfl⟩


/-! ## Lemmas on the command actions -/

theorem assetListing_filter (p : Event → Bool) (hp : ∀ t, p (.out (.info t)) = false)
    (assets : List GoString) : (assetListing assets).filter p = [] := by
  unfold assetListing
  split
  · simp [hp]
  · simp [hp, List.filter_eq_nil_iff]

theorem GlobalBool_debug (ctx : Context) : ctx.GlobalBool "debug" = ctx.debug := by
  simp [Context.GlobalBool]

theorem GlobalBool_dryRun (ctx : Context) : ctx.GlobalBool "dry-run" = ctx.dryRun := by
  simp [Context.GlobalBool]

theorem cmdCreateRelease_dry (w : World) (ctx : Context) (h : ctx.dryRun = true) :
    (cmdCreateRelease w ctx).2.filter (fun e => e.isRemoteCall || e.isOpenFile) = [] := by
  have hl := assetListing_filter (fun e => e.isRemoteCall || e.isOpenFile) (fun _ => rfl)
  unfold cmdCreateRelease findFiles
  simp only [GlobalBool_debug, GlobalBool_dryRun, h]
  cases w.glob (ctx.String "assets") <;> cases ctx.debug <;>
    simp only [List.filter_append, hl, if_true, if_false, List.append_nil] <;> rfl

theorem cmdUpdateRelease_dry (w : World) (ctx : Context) (h : ctx.dryRun = true) :
    (cmdUpdateRelease w ctx).2.filter (fun e => e.isRemoteCall || e.isOpenFile) = [] := by
  have hl := assetListing_filter (fun e => e.isRemoteCall || e.isOpenFile) (fun _ => rfl)
  unfold cmdUpdateRelease findFiles
  simp only [GlobalBool_debug, GlobalBool_dryRun, h]
  cases w.glob (ctx.String "assets") <;> cases ctx.debug <;>
    simp only [List.filter_append, hl, if_true, if_false, List.append_nil] <;> rfl

theorem cmdUploadArtifacts_dry (w : World) (ctx : Context) (h : ctx.dryRun = true) :
    (cmdUploadArtifacts w ctx).2.filter (fun e => e.isRemoteCall || e.isOpenFile) = [] := by
  have hl := assetListing_filter (fun e => e.isRemoteCall || e.isOpenFile) (fun _ => rfl)
  unfold cmdUploadArtifacts findFiles
  simp only [GlobalBool_debug, GlobalBool_dryRun, h]
  cases w.glob (ctx.String "glob-pattern") <;> cases ctx.debug <;>
    simp only [List.filter_append, hl, if_true, if_false, List.append_nil] <;> rfl

/-- One round of the asset loop with a release id at hand: it does not panic, it opens the
path, and it either prints the one line for a file that cannot be opened or makes the one
upload call. -/
theorem uploadAsset_some (w : World) (debug : Bool) (repo : gitHubRepo) (id : Int)
    (token : GoString) (i : Nat) (p : GoString) :
    (uploadAsset w debug repo (some id) token i p).2 = false ∧
    (uploadAsset w debug repo (some id) token i p).1.filter Event.isOpenFile =
      [.openFile p] ∧
    (uploadAsset w debug repo (some id) token i p).1.filter Event.isFailedToOpen =
      (if w.openFile i p then [] else [.out (.failedToOpen p)]) ∧
    (uploadAsset w debug repo (some id) token i p).1.filter Event.isUpload =
      (if w.openFile i p then
        [.uploadReleaseAsset repo.Owner repo.Name id (pathBase p) p token] else []) := by
  unfold uploadAsset gitHubRepo.UploadReleaseAsset
  cases hopen : w.openFile i p
  · simp [Event.isOpenFile, Event.isFailedToOpen, Event.isUpload]
  · cases debug <;>
      cases hup : w.uploadReleaseAsset i repo.Owner repo.Name id (pathBase p) p token <;>
      simp [hup, Event.isOpenFile, Event.isFailedToOpen, Event.isUpload]

/-- The asset loop with a release id at hand, from position `k` on. -/
theorem uploadAssets_some (w : World) (debug : Bool) (repo : gitHubRepo) (id : Int)
    (token : GoString) (assets : List GoString) (k : Nat) :
    (uploadAssets w debug repo (some id) token k assets).1 = .returned none ∧
    (uploadAssets w debug repo (some id) token k assets).2.filter Event.isOpenFile =
      assets.map .openFile ∧
    (uploadAssets w debug repo (some id) token k assets).2.filter Event.isFailedToOpen =
      ((assets.enumFrom k).filter (fun ip => !w.openFile ip.1 ip.2)).map
        (fun ip => .out (.failedToOpen ip.2)) ∧
    (uploadAssets w debug repo (some id) token k assets).2.filter Event.isUpload =
      ((assets.enumFrom k).filter (fun ip => w.openFile ip.1 ip.2)).map
        (fun ip => .uploadReleaseAsset repo.Owner repo.Name id (pathBase ip.2) ip.2 token) := by
  induction assets generalizing k with
  | nil => simp [uploadAssets]
  | cons p rest ih =>
    obtain ⟨h1, h2, h3, h4⟩ := uploadAsset_some w debug repo id token k p
    obtain ⟨r1, r2, r3, r4⟩ := ih (k + 1)
    unfold uploadAssets
    simp only [h1, Bool.false_eq_true, if_false, List.filter_append, h2, h3, h4, r1, r2, r3, r4,
      List.enumFrom_cons, List.map_cons, List.filter_cons]
    cases w.openFile k p <;> simp

/-- A trace that holds no event of the asset loop, followed by the events of the loop. -/
theorem AssetsHandled_append (w : World) (debug : Bool) (repo : gitHubRepo) (id : Int)
    (token : GoString) (assets : List GoString) (tr : List Event)
    (h1 : tr.filter Event.isOpenFile = []) (h2 : tr.filter Event.isFailedToOpen = [])
    (h3 : tr.filter Event.isUpload = []) :
    AssetsHandled w repo id token assets
      (tr ++ (uploadAssets w debug repo (some id) token 0 assets).2) := by
  obtain ⟨_, r2, r3, r4⟩ := uploadAssets_some w debug repo id token assets 0
  unfold AssetsHandled
  simp only [List.filter_append, h1, h2, h3, r2, r3, r4, List.nil_append, List.enum]
  exact ⟨trivial, trivial, trivial⟩

theorem cmdCreateRelease_assets (w : World) (ctx : Context) (assets : List GoString) (id : Int)
    (hdry : ctx.dryRun = false) (hglob : w.glob (ctx.String "assets") = .ok assets)
    (hcreate : (ctx.repo.CreateRelease w ctx.createDescriptor (ctx.String "github-token")).2 =
      .ok (some id)) :
    AssetsHandled w ctx.repo id (ctx.String "github-token") assets (cmdCreateRelease w ctx).2 := by
  have l1 := assetListing_filter Event.isOpenFile (fun _ => rfl) assets
  have l2 := assetListing_filter Event.isFailedToOpen (fun _ => rfl) assets
  have l3 := assetListing_filter Event.isUpload (fun _ => rfl) assets
  unfold Context.repo Context.createDescriptor at hcreate
  unfold cmdCreateRelease findFiles
  simp only [GlobalBool_debug, GlobalBool_dryRun, hdry, hglob, hcreate]
  cases ctx.debug
  · exact AssetsHandled_append w false _ id _ assets _ rfl rfl rfl
  · refine AssetsHandled_append w true _ id _ assets _ ?_ ?_ ?_ <;>
      simp only [↓reduceIte, List.filter_append, l1, l2, l3, List.append_nil] <;> rfl

theorem cmdUpdateRelease_assets (w : World) (ctx : Context) (assets : List GoString) (id : Int)
    (updated : Option Int)
    (hdry : ctx.dryRun = false) (hglob : w.glob (ctx.String "assets") = .ok assets)
    (hlookup : (ctx.repo.GetReleaseIdByTag w (ctx.String "tag") (ctx.String "github-token")).2 =
      .ok (some id))
    (hupdate : (ctx.repo.UpdateRelease w id ctx.updateDescriptor (ctx.String "github-token")).2 =
      .ok updated) :
    AssetsHandled w ctx.repo id (ctx.String "github-token") assets (cmdUpdateRelease w ctx).2 := by
  have l1 := assetListing_filter Event.isOpenFile (fun _ => rfl) assets
  have l2 := assetListing_filter Event.isFailedToOpen (fun _ => rfl) assets
  have l3 := assetListing_filter Event.isUpload (fun _ => rfl) assets
  unfold Context.repo at hlookup hupdate
  unfold Context.updateDescriptor at hupdate
  unfold cmdUpdateRelease findFiles
  simp only [GlobalBool_debug, GlobalBool_dryRun, hdry, hglob, hlookup, hupdate]
  cases ctx.debug
  · exact AssetsHandled_append w false _ id _ assets _ rfl rfl rfl
  · refine AssetsHandled_append w true _ id _ assets _ ?_ ?_ ?_ <;>
      simp only [↓reduceIte, List.filter_append, l1, l2, l3, List.append_nil] <;> rfl

theorem cmdUploadArtifacts_assets (w : World) (ctx : Context) (assets : List GoString)
    (id : Int)
    (hdry : ctx.dryRun = false) (hglob : w.glob (ctx.String "glob-pattern") = .ok assets)
    (hlookup : (ctx.repo.GetReleaseIdByTag w (ctx.String "tag") (ctx.String "github-token")).2 =
      .ok (some id)) :
    AssetsHandled w ctx.repo id (ctx.String "github-token") assets
      (cmdUploadArtifacts w ctx).2 := by
  have l1 := assetListing_filter Event.isOpenFile (fun _ => rfl) assets
  have l2 := assetListing_filter Event.isFailedToOpen (fun _ => rfl) assets
  have l3 := assetListing_filter Event.isUpload (fun _ => rfl) assets
  unfold Context.repo at hlookup
  unfold cmdUploadArtifacts findFiles
  simp only [GlobalBool_debug, GlobalBool_dryRun, hdry, hglob, hlookup]
  cases ctx.debug
  · exact AssetsHandled_append w false _ id _ assets _ rfl rfl rfl
  · refine AssetsHandled_append w true _ id _ assets _ ?_ ?_ ?_ <;>
      simp only [↓reduceIte, List.filter_append, l1, l2, l3, List.append_nil] <;> rfl

/-! ## Claims on the command actions -/

/-- C6: when the dry-run flag is set, `cmdCreateRelease`, `cmdUpdateRelease` and
`cmdUploadArtifacts` make no call of the Release API client and open no file, whatever the
context and whatever the outside world would answer. -/
theorem dry_run_makes_no_call (w : World) (ctx : Context) (hdry : ctx.dryRun = true) :
    (cmdCreateRelease w ctx).2.filter (fun e => e.isRemoteCall || e.isOpenFile) = [] ∧
    (cmdUpdateRelease w ctx).2.filter (fun e => e.isRemoteCall || e.isOpenFile) = [] ∧
    (cmdUploadArtifacts w ctx).2.filter (fun e => e.isRemoteCall || e.isOpenFile) = [] :=
  ⟨cmdCreateRelease_dry w ctx hdry, cmdUpdateRelease_dry w ctx hdry,
    cmdUploadArtifacts_dry w ctx hdry⟩

/-- C6 at a context with dry-run and debug set, in a world with matching assets and a GitHub
that would accept every call. -/
theorem dry_run_makes_no_call_witness :
    (cmdCreateRelease sampleWorld { sampleContext with dryRun := true, debug := true }).2.filter
      (fun e => e.isRemoteCall || e.isOpenFile) = [] ∧
    (cmdUpdateRelease sampleWorld { sampleContext with dryRun := true, debug := true }).2.filter
      (fun e => e.isRemoteCall || e.isOpenFile) = [] ∧
    (cmdUploadArtifacts sampleWorld { sampleContext with dryRun := true, debug := true }).2.filter
      (fun e => e.isRemoteCall || e.isOpenFile) = [] :=
  dry_run_makes_no_call sampleWorld { sampleContext with dryRun := true, debug := true } rfl

/-- C10: in the asset loop of create-release, update-release and upload-assets, reached with
the release id `id`, every path of the list is opened once, in list order; each path that
cannot be opened gives exactly one line "Failed to open <path>. Skipping." and no upload
call; and `UploadReleaseAsset` is called exactly once, in list order, for each path that
opens, with the name `path.Base` of that path. -/
theorem asset_loop_handles_every_path (w : World) (ctx : Context) (assets : List GoString)
    (id : Int) (hdry : ctx.dryRun = false) :
    (w.glob (ctx.String "assets") = .ok assets →
      (ctx.repo.CreateRelease w ctx.createDescriptor (ctx.String "github-token")).2 =
        .ok (some id) →
      AssetsHandled w ctx.repo id (ctx.String "github-token") assets
        (cmdCreateRelease w ctx).2) ∧
    (w.glob (ctx.String "assets") = .ok assets →
      (ctx.repo.GetReleaseIdByTag w (ctx.String "tag") (ctx.String "github-token")).2 =
        .ok (some id) →
      (∃ updated,
        (ctx.repo.UpdateRelease w id ctx.updateDescriptor (ctx.String "github-token")).2 =
          .ok updated) →
      AssetsHandled w ctx.repo id (ctx.String "github-token") assets
        (cmdUpdateRelease w ctx).2) ∧
    (w.glob (ctx.String "glob-pattern") = .ok assets →
      (ctx.repo.GetReleaseIdByTag w (ctx.String "tag") (ctx.String "github-token")).2 =
        .ok (some id) →
      AssetsHandled w ctx.repo id (ctx.String "github-token") assets
        (cmdUploadArtifacts w ctx).2) ∧
    (∀ assetPath, (Out.failedToOpen assetPath).text? =
      some (goStr "Failed to open " ++ assetPath ++ goStr ". Skipping.\n")) := by
  refine ⟨?_, ?_, ?_, fun _ => rfl⟩
  · intro hglob hcreate
    exact cmdCreateRelease_assets w ctx assets id hdry hglob hcreate
  · intro hglob hlookup hupdate
    obtain ⟨updated, hupdate⟩ := hupdate
    exact cmdUpdateRelease_assets w ctx assets id updated hdry hglob hlookup hupdate
  · intro hglob hlookup
    exact cmdUploadArtifacts_assets w ctx assets id hdry hglob hlookup

/-- C10 in a world where three files match and the second cannot be opened. -/
theorem asset_loop_handles_every_path_witness :
    AssetsHandled sampleWorld sampleContext.repo 7 (sampleContext.String "github-token")
        [goStr "dist/a.zip", goStr "dist/b.zip", goStr "dist/c.zip"]
        (cmdCreateRelease sampleWorld sampleContext).2 ∧
    AssetsHandled sampleWorld sampleContext.repo 7 (sampleContext.String "github-token")
        [goStr "dist/a.zip", goStr "dist/b.zip", goStr "dist/c.zip"]
        (cmdUpdateRelease sampleWorld sampleContext).2 ∧
    AssetsHandled sampleWorld sampleContext.repo 7 (sampleContext.String "github-token")
        [goStr "dist/a.zip", goStr "dist/b.zip", goStr "dist/c.zip"]
        (cmdUploadArtifacts sampleWorld sampleContext).2 :=
  have h := asset_loop_handles_every_path sampleWorld sampleContext
    [goStr "dist/a.zip", goStr "dist/b.zip", goStr "dist/c.zip"] 7 rfl
  ⟨h.1 rfl rfl, h.2.1 rfl rfl ⟨some 7, rfl⟩, h.2.2.1 rfl rfl⟩

/-! ## Totality of `splitRepositoryName` -/

theorem splitRepositoryName_of_not_mem (s : GoString) (h : (47 : UInt8) ∉ s) :
    splitRepositoryName s = some ([], [], some (.badArgument
      { argument := goStr "REPO",
        reason := goStr "expected to be of the form owner/repo but found no /" })) := by
  unfold splitRepositoryName
  simp only [goStr_slash, stringsIndex_of_not_mem s h]
  rfl

theorem splitRepositoryName_leading (post : GoString) :
    splitRepositoryName (47 :: post) = some ([], [], some (.badArgument
      { argument := goStr "REPO",
        reason :=
          goStr "expected to be of the form owner/repo but owner portion was blank" })) := by
  have h0 : stringsIndex ((47 : UInt8) :: post) [47] = 0 := by
    rw [stringsIndex_slash_cons]; simp
  unfold splitRepositoryName
  simp only [goStr_slash, h0]
  rfl

/-- C12: for every string, `splitRepositoryName` returns (its slices are within bounds, so it
does not panic), and whenever it returns no error the owner, a `/` and the repo put together
give back the input, and the owner holds no `/`. -/
theorem splitRepositoryName_total_and_reassembles (s : GoString) :
    (splitRepositoryName s).isSome = true ∧
    ∀ owner repo, splitRepositoryName s = some (owner, repo, none) →
      owner ++ goStr "/" ++ repo = s ∧ (47 : UInt8) ∉ owner := by
  rcases stringsIndex_cases s with ⟨hno, _⟩ | ⟨pre, post, hs, hpre, _⟩
  · rw [splitRepositoryName_of_not_mem s hno]
    refine ⟨rfl, ?_⟩
    intro owner repo h
    simp at h
  · subst hs
    cases pre with
    | nil =>
      rw [List.nil_append, splitRepositoryName_leading post]
      refine ⟨rfl, ?_⟩
      intro owner repo h
      simp at h
    | cons b rest =>
      rw [splitRepositoryName_append (b :: rest) post hpre (List.cons_ne_nil b rest)]
      refine ⟨rfl, ?_⟩
      intro owner repo h
      simp only [Option.some.injEq, Prod.mk.injEq, and_true] at h
      obtain ⟨h1, h2⟩ := h
      subst h1 h2
      refine ⟨?_, hpre⟩
      rw [goStr_slash]
      simp

/-- C12 at the input `"a/b/c"`, which splits into `"a"` and `"b/c"`. -/
theorem splitRepositoryName_total_and_reassembles_witness :
    (splitRepositoryName (goStr "a/b/c")).isSome = true ∧
    goStr "a" ++ goStr "/" ++ goStr "b/c" = goStr "a/b/c" ∧ (47 : UInt8) ∉ goStr "a" :=
  ⟨(splitRepositoryName_total_and_reassembles (goStr "a/b/c")).1,
   (splitRepositoryName_total_and_reassembles (goStr "a/b/c")).2 (goStr "a") (goStr "b/c")
    (by decide)⟩

/-! ## The result of the commands -/

theorem cmdCreateRelease_ok (w : World) (ctx : Context) (assets : List GoString) (id : Int)
    (hdry : ctx.dryRun = false) (hglob : w.glob (ctx.String "assets") = .ok assets)
    (hcreate : (ctx.repo.CreateRelease w ctx.createDescriptor (ctx.String "github-token")).2 =
      .ok (some id)) :
    (cmdCreateRelease w ctx).1 = .returned none := by
  unfold Context.repo Context.createDescriptor at hcreate
  unfold cmdCreateRelease findFiles
  simp only [GlobalBool_debug, GlobalBool_dryRun, hdry, hglob, hcreate]
  cases ctx.debug <;> exact (uploadAssets_some w _ _ id _ assets 0).1

theorem cmdCreateRelease_refused (w : World) (ctx : Context) (assets : List GoString)
    (err : GoError)
    (hdry : ctx.dryRun = false) (hglob : w.glob (ctx.String "assets") = .ok assets)
    (hcreate : (ctx.repo.CreateRelease w ctx.createDescriptor (ctx.String "github-token")).2 =
      .error err) :
    (cmdCreateRelease w ctx).1 = .returned (some err) ∧
    (cmdCreateRelease w ctx).2.filter Event.isUpload = [] := by
  have l3 := assetListing_filter Event.isUpload (fun _ => rfl) assets
  unfold Context.repo Context.createDescriptor at hcreate
  unfold cmdCreateRelease findFiles
  simp only [GlobalBool_debug, GlobalBool_dryRun, hdry, hglob, hcreate]
  cases ctx.debug
  · exact ⟨rfl, rfl⟩
  · refine ⟨rfl, ?_⟩
    simp only [Bool.false_eq_true, ↓reduceIte, List.filter_append, l3, List.append_nil]
    rfl

theorem cmdUpdateRelease_ok (w : World) (ctx : Context) (assets : List GoString) (id : Int)
    (updated : Option Int)
    (hdry : ctx.dryRun = false) (hglob : w.glob (ctx.String "assets") = .ok assets)
    (hlookup : (ctx.repo.GetReleaseIdByTag w (ctx.String "tag") (ctx.String "github-token")).2 =
      .ok (some id))
    (hupdate : (ctx.repo.UpdateRelease w id ctx.updateDescriptor (ctx.String "github-token")).2 =
      .ok updated) :
    (cmdUpdateRelease w ctx).1 = .returned none := by
  unfold Context.repo at hlookup hupdate
  unfold Context.updateDescriptor at hupdate
  unfold cmdUpdateRelease findFiles
  simp only [GlobalBool_debug, GlobalBool_dryRun, hdry, hglob, hlookup, hupdate]
  cases ctx.debug <;> exact (uploadAssets_some w _ _ id _ assets 0).1

theorem cmdUpdateRelease_lookup_refused (w : World) (ctx : Context) (assets : List GoString)
    (err : GoError)
    (hdry : ctx.dryRun = false) (hglob : w.glob (ctx.String "assets") = .ok assets)
    (hlookup : (ctx.repo.GetReleaseIdByTag w (ctx.String "tag") (ctx.String "github-token")).2 =
      .error err) :
    (cmdUpdateRelease w ctx).1 = .returned (some err) ∧
    (cmdUpdateRelease w ctx).2.filter Event.isUpload = [] := by
  have l3 := assetListing_filter Event.isUpload (fun _ => rfl) assets
  unfold Context.repo at hlookup
  unfold cmdUpdateRelease findFiles
  simp only [GlobalBool_debug, GlobalBool_dryRun, hdry, hglob, hlookup]
  cases ctx.debug
  · exact ⟨rfl, rfl⟩
  · refine ⟨rfl, ?_⟩
    simp only [Bool.false_eq_true, ↓reduceIte, List.filter_append, l3, List.append_nil]
    rfl

theorem cmdUpdateRelease_update_refused (w : World) (ctx : Context) (assets : List GoString)
    (id : Int) (err : GoError)
    (hdry : ctx.dryRun = false) (hglob : w.glob (ctx.String "assets") = .ok assets)
    (hlookup : (ctx.repo.GetReleaseIdByTag w (ctx.String "tag") (ctx.String "github-token")).2 =
      .ok (some id))
    (hupdate : (ctx.repo.UpdateRelease w id ctx.updateDescriptor (ctx.String "github-token")).2 =
      .error err) :
    (cmdUpdateRelease w ctx).1 = .returned (some err) ∧
    (cmdUpdateRelease w ctx).2.filter Event.isUpload = [] := by
  have l3 := assetListing_filter Event.isUpload (fun _ => rfl) assets
  unfold Context.repo at hlookup hupdate
  unfold Context.updateDescriptor at hupdate
  unfold cmdUpdateRelease findFiles
  simp only [GlobalBool_debug, GlobalBool_dryRun, hdry, hglob, hlookup, hupdate]
  cases ctx.debug
  · exact ⟨rfl, rfl⟩
  · refine ⟨rfl, ?_⟩
    simp only [Bool.false_eq_true, ↓reduceIte, List.filter_append, l3, List.append_nil]
    rfl

theorem cmdUploadArtifacts_ok (w : World) (ctx : Context) (assets : List GoString) (id : Int)
    (hdry : ctx.dryRun = false) (hglob : w.glob (ctx.String "glob-pattern") = .ok assets)
    (hlookup : (ctx.repo.GetReleaseIdByTag w (ctx.String "tag") (ctx.String "github-token")).2 =
      .ok (some id)) :
    (cmdUploadArtifacts w ctx).1 = .returned none := by
  unfold Context.repo at hlookup
  unfold cmdUploadArtifacts findFiles
  simp only [GlobalBool_debug, GlobalBool_dryRun, hdry, hglob, hlookup]
  cases ctx.debug <;> exact (uploadAssets_some w _ _ id _ assets 0).1

theorem cmdUploadArtifacts_refused (w : World) (ctx : Context) (assets : List GoString)
    (err : GoError)
    (hdry : ctx.dryRun = false) (hglob : w.glob (ctx.String "glob-pattern") = .ok assets)
    (hlookup : (ctx.repo.GetReleaseIdByTag w (ctx.String "tag") (ctx.String "github-token")).2 =
      .error err) :
    (cmdUploadArtifacts w ctx).1 = .returned (some err) ∧
    (cmdUploadArtifacts w ctx).2.filter Event.isUpload = [] := by
  have l3 := assetListing_filter Event.isUpload (fun _ => rfl) assets
  unfold Context.repo at hlookup
  unfold cmdUploadArtifacts findFiles
  simp only [GlobalBool_debug, GlobalBool_dryRun, hdry, hglob, hlookup]
  cases ctx.debug
  · exact ⟨rfl, rfl⟩
  · refine ⟨rfl, ?_⟩
    simp only [Bool.false_eq_true, ↓reduceIte, List.filter_append, l3, List.append_nil]
    rfl

/-- C11: for create-release, update-release and upload-assets without dry-run, when the glob
resolves and the primary step (create; lookup then update; lookup) succeeds with the release
id `id`, the command returns no error whatever the uploads answer, and every path that opens
is still uploaded; when the primary step fails, the command returns that error and makes no
`UploadReleaseAsset` call. -/
theorem upload_failures_leave_the_result (w : World) (ctx : Context)
    (assets : List GoString) (id : Int) (hdry : ctx.dryRun = false) :
    (w.glob (ctx.String "assets") = .ok assets →
      ((ctx.repo.CreateRelease w ctx.createDescriptor (ctx.String "github-token")).2 =
          .ok (some id) →
        (cmdCreateRelease w ctx).1 = .returned none ∧
        AssetsHandled w ctx.repo id (ctx.String "github-token") assets
          (cmdCreateRelease w ctx).2) ∧
      (∀ err,
        (ctx.repo.CreateRelease w ctx.createDescriptor (ctx.String "github-token")).2 =
          .error err →
        (cmdCreateRelease w ctx).1 = .returned (some err) ∧
        (cmdCreateRelease w ctx).2.filter Event.isUpload = [])) ∧
    (w.glob (ctx.String "assets") = .ok assets →
      ((ctx.repo.GetReleaseIdByTag w (ctx.String "tag") (ctx.String "github-token")).2 =
          .ok (some id) →
        (∃ updated,
          (ctx.repo.UpdateRelease w id ctx.updateDescriptor (ctx.String "github-token")).2 =
            .ok updated) →
        (cmdUpdateRelease w ctx).1 = .returned none ∧
        AssetsHandled w ctx.repo id (ctx.String "github-token") assets
          (cmdUpdateRelease w ctx).2) ∧
      (∀ err,
        (ctx.repo.GetReleaseIdByTag w (ctx.String "tag") (ctx.String "github-token")).2 =
          .error err →
        (cmdUpdateRelease w ctx).1 = .returned (some err) ∧
        (cmdUpdateRelease w ctx).2.filter Event.isUpload = []) ∧
      (∀ err,
        (ctx.repo.GetReleaseIdByTag w (ctx.String "tag") (ctx.String "github-token")).2 =
          .ok (some id) →
        (ctx.repo.UpdateRelease w id ctx.updateDescriptor (ctx.String "github-token")).2 =
          .error err →
        (cmdUpdateRelease w ctx).1 = .returned (some err) ∧
        (cmdUpdateRelease w ctx).2.filter Event.isUpload = [])) ∧
    (w.glob (ctx.String "glob-pattern") = .ok assets →
      ((ctx.repo.GetReleaseIdByTag w (ctx.String "tag") (ctx.String "github-token")).2 =
          .ok (some id) →
        (cmdUploadArtifacts w ctx).1 = .returned none ∧
        AssetsHandled w ctx.repo id (ctx.String "github-token") assets
          (cmdUploadArtifacts w ctx).2) ∧
      (∀ err,
        (ctx.repo.GetReleaseIdByTag w (ctx.String "tag") (ctx.String "github-token")).2 =
          .error err →
        (cmdUploadArtifacts w ctx).1 = .returned (some err) ∧
        (cmdUploadArtifacts w ctx).2.filter Event.isUpload = [])) := by
  refine ⟨fun hglob => ⟨?_, ?_⟩, fun hglob => ⟨?_, ?_, ?_⟩, fun hglob => ⟨?_, ?_⟩⟩
  · intro hcreate
    exact ⟨cmdCreateRelease_ok w ctx assets id hdry hglob hcreate,
      cmdCreateRelease_assets w ctx assets id hdry hglob hcreate⟩
  · intro err hcreate
    exact cmdCreateRelease_refused w ctx assets err hdry hglob hcreate
  · intro hlookup hupdate
    obtain ⟨updated, hupdate⟩ := hupdate
    exact ⟨cmdUpdateRelease_ok w ctx assets id updated hdry hglob hlookup hupdate,
      cmdUpdateRelease_assets w ctx assets id updated hdry hglob hlookup hupdate⟩
  · intro err hlookup
    exact cmdUpdateRelease_lookup_refused w ctx assets err hdry hglob hlookup
  · intro err hlookup hupdate
    exact cmdUpdateRelease_update_refused w ctx assets id err hdry hglob hlookup hupdate
  · intro hlookup
    exact ⟨cmdUploadArtifacts_ok w ctx assets id hdry hglob hlookup,
      cmdUploadArtifacts_assets w ctx assets id hdry hglob hlookup⟩
  · intro err hlookup
    exact cmdUploadArtifacts_refused w ctx assets err hdry hglob hlookup

/-- C11 in a world where the upload of the first file fails and yet the three commands return
no error, and in a world where the tag is not found and `upload-assets` returns that error
without an upload call. -/
theorem upload_failures_leave_the_result_witness :
    sampleWorld.uploadReleaseAsset 0 (goStr "acme") (goStr "widgets") 7 (goStr "a.zip")
        (goStr "dist/a.zip") [] = some (.external (goStr "upload failed")) ∧
    (cmdCreateRelease sampleWorld sampleContext).1 = .returned none ∧
    (cmdUpdateRelease sampleWorld sampleContext).1 = .returned none ∧
    (cmdUploadArtifacts sampleWorld sampleContext).1 = .returned none ∧
    (cmdUploadArtifacts refusingWorld sampleContext).1 =
      .returned (some (.external (goStr "404 Not Found"))) ∧
    (cmdUploadArtifacts refusingWorld sampleContext).2.filter Event.isUpload = [] :=
  have ok := upload_failures_leave_the_result sampleWorld sampleContext
    [goStr "dist/a.zip", goStr "dist/b.zip", goStr "dist/c.zip"] 7 rfl
  have refused := upload_failures_leave_the_result refusingWorld sampleContext
    [goStr "dist/a.zip", goStr "dist/b.zip", goStr "dist/c.zip"] 7 rfl
  ⟨rfl, ((ok.1 rfl).1 rfl).1, ((ok.2.1 rfl).1 rfl ⟨some 7, rfl⟩).1, ((ok.2.2 rfl).1 rfl).1,
    (refused.2.2 rfl).2 _ rfl⟩

end Grease
